import Mathlib

/-!
Verification development for `nmma/em/create_lightcurves.py` (function `main`).

The pipeline is shallowly embedded: machine floats are modelled as exact
rationals (`ℚ`), the argparse namespace as a structure `Args`, the model
dispatch (lines 198-250) as a total function into `Except`, the per-index
cache loop (lines 269-298) as explicit state passing over an association
list playing the role of the output directory, and the plotting-side
aggregation (lines 341-373) as list functions mirroring `interp1d`,
`np.histogram` and `np.nanpercentile`.
-/

namespace NMMA

/-- Keyword configuration for the nested kilonova sub-model
(lines 204-211 of the source). -/
structure KilonovaKwargs where
  model : String
  svd_path : Option String
  mag_ncoeff : Int
  lbol_ncoeff : Int
  interpolation_type : String
deriving Repr, DecidableEq

/-- The five light-curve model compositions that `main` can construct
(imports at lines 12-17; construction sites at lines 213-250). -/
inductive LightCurveModel where
  | SVDLightCurveModel (model : String) (svd_path : Option String)
      (mag_ncoeff lbol_ncoeff : Int) (interpolation_type : String)
  | GRBLightCurveModel (resolution : ℚ) (jetType : Int)
  | SupernovaLightCurveModel (model : String)
  | KilonovaGRBLightCurveModel (kilonova_kwargs : KilonovaKwargs)
      (GRB_resolution : ℚ) (jetType : Int)
  | SupernovaGRBLightCurveModel (GRB_resolution : ℚ) (SNmodel : String)
      (jetType : Int)
deriving Repr, DecidableEq

/-- The command-line arguments that feed the model-selection and
injection-synthesis logic (argparse declarations, lines 27-187).
`ztf_ToO` is a string choice that may be absent, hence `Option String`. -/
structure Args where
  model : String
  svd_path : Option String
  tmin : ℚ
  tmax : ℚ
  dt : ℚ
  svd_mag_ncoeff : Int
  svd_lbol_ncoeff : Int
  grb_resolution : ℚ
  jet_type : Int
  interpolation_type : String
  joint_light_curve : Bool
  absolute : Bool
  ztf_sampling : Bool
  ztf_ToO : Option String
  rubin_ToO : Bool
  photometry_augmentation : Bool
deriving Repr, DecidableEq

/-- Errors surfaced by the orchestrator.  The source raises an
`AssertionError` at line 200 for the forbidden joint configuration and a
`KeyError` at lines 280-282 for a row missing both trigger-time keys; the
spec names these `ConfigurationError` and `MissingFieldError`. -/
inductive PipelineError where
  | ConfigurationError (msg : String)
  | MissingFieldError
deriving Repr, DecidableEq

/-- The joint-mode guard at line 202 of the source, verbatim:
`args.model != "nugent-hyper" or args.model != "salt2"`. -/
def jointGuard (model : String) : Bool :=
  model != "nugent-hyper" || model != "salt2"

/-- Model dispatch, lines 198-250 of the source: in joint mode the
assertion at line 200 rejects `TrPi2018`, then the guard at line 202
selects between the kilonova+GRB composite (lines 204-218) and the
supernova+GRB composite (lines 222-227); in single mode lines 230-250
select between GRB, supernova and SVD-surrogate models. -/
def buildModel (a : Args) : Except PipelineError LightCurveModel :=
  if a.joint_light_curve then
    if a.model = "TrPi2018" then
      .error (.ConfigurationError "TrPi2018 is not a kilonova / supernova model")
    else if jointGuard a.model then
      .ok (.KilonovaGRBLightCurveModel
        ⟨a.model, a.svd_path, a.svd_mag_ncoeff, a.svd_lbol_ncoeff,
          a.interpolation_type⟩
        a.grb_resolution a.jet_type)
    else
      .ok (.SupernovaGRBLightCurveModel a.grb_resolution a.model a.jet_type)
  else
    if a.model = "TrPi2018" then
      .ok (.GRBLightCurveModel a.grb_resolution a.jet_type)
    else if a.model = "nugent-hyper" || a.model = "salt2" then
      .ok (.SupernovaLightCurveModel a.model)
    else
      .ok (.SVDLightCurveModel a.model a.svd_path a.svd_mag_ncoeff
        a.svd_lbol_ncoeff a.interpolation_type)

/-- Length of `np.arange(start, stop, step)` for a positive step:
`ceil((stop - start) / step)` clamped at zero. -/
def arangeLen (start stop step : ℚ) : ℕ :=
  (Int.ceil ((stop - start) / step)).toNat

/-- The i-th point of `np.arange(start, _, step)`: `start + i * step`
(numpy computes points that way, not by accumulation). -/
def arangePoint (start step : ℚ) (i : ℕ) : ℚ := start + (i : ℚ) * step

/-- `np.arange(start, stop, step)` over exact rationals. -/
def arange (start stop step : ℚ) : List ℚ :=
  (List.range (arangeLen start stop step)).map (arangePoint start step)

lemma arange_length (start stop step : ℚ) :
    (arange start stop step).length = arangeLen start stop step := by
  simp [arange]

lemma arange_headD (start stop step : ℚ) (m : ℕ)
    (h : arangeLen start stop step = m + 1) :
    (arange start stop step).headD 0 = start := by
  rw [arange, h, List.range_succ_eq_map]
  simp [arangePoint]

lemma arange_getLastD (start stop step : ℚ) (m : ℕ)
    (h : arangeLen start stop step = m + 1) :
    (arange start stop step).getLastD 0 = start + m * step := by
  rw [arange, h, List.range_succ, List.map_append]
  simp [arangePoint]

/-- The time grid of line 196: `np.arange(args.tmin, args.tmax + args.dt,
args.dt)`. -/
def sampleTimes (a : Args) : List ℚ :=
  arange a.tmin (a.tmax + a.dt) a.dt

/-- The guard at line 202 is true for every model name: no string equals
both `"nugent-hyper"` and `"salt2"`. -/
lemma jointGuard_eq_true (m : String) : jointGuard m = true := by
  unfold jointGuard
  by_cases h : m = "nugent-hyper"
  · subst h
    decide
  · simp [h]

/-- Concrete arguments: joint mode with the supernova template
`nugent-hyper` and otherwise-default values. -/
def argsJointNugent : Args :=
  ⟨"nugent-hyper", none, 0, 14, 1/10, 10, 10, 5, 0, "sklearn_gp",
   true, false, false, none, false, false⟩

/-- Concrete arguments: joint mode with the GRB-only model `TrPi2018`. -/
def argsJointTrPi : Args :=
  ⟨"TrPi2018", none, 0, 14, 1/10, 10, 10, 5, 0, "sklearn_gp",
   true, false, false, none, false, false⟩

/-- C1: at the failing input (modelName = "nugent-hyper", jointFlag set)
the code builds the kilonova+GRB composite, not the supernova+GRB
composite the spec prescribes: the line-202 guard
`model != "nugent-hyper" or model != "salt2"` is true even for
"nugent-hyper", so the supernova branch is skipped. -/
theorem c1_joint_supernova_misdispatch :
    buildModel argsJointNugent =
      .ok (.KilonovaGRBLightCurveModel
        ⟨"nugent-hyper", none, 10, 10, "sklearn_gp"⟩ 5 0) ∧
    ∀ r s j, buildModel argsJointNugent ≠
      .ok (.SupernovaGRBLightCurveModel r s j) := by
  constructor
  · rfl
  · intro r s j h
    simp [buildModel, argsJointNugent, jointGuard] at h

/-- C2: for every model name other than "TrPi2018", joint mode always
builds the kilonova+GRB composite, and no input whatsoever makes
`buildModel` return the supernova+GRB composite: the line-202 guard is
identically true, so that branch is unreachable. -/
theorem c2_supernova_grb_branch_unreachable (a : Args) :
    (a.joint_light_curve = true → a.model ≠ "TrPi2018" →
      buildModel a = .ok (.KilonovaGRBLightCurveModel
        ⟨a.model, a.svd_path, a.svd_mag_ncoeff, a.svd_lbol_ncoeff,
          a.interpolation_type⟩
        a.grb_resolution a.jet_type)) ∧
    (∀ r s j, buildModel a ≠
      .ok (.SupernovaGRBLightCurveModel r s j)) := by
  constructor
  · intro hj hm
    simp [buildModel, hj, hm, jointGuard_eq_true]
  · intro r s j h
    by_cases hj : a.joint_light_curve
    · by_cases hm : a.model = "TrPi2018"
      · simp [buildModel, hj, hm] at h
      · simp [buildModel, hj, hm, jointGuard_eq_true] at h
    · by_cases hm : a.model = "TrPi2018"
      · simp [buildModel, hj, hm] at h
      · by_cases hs : a.model = "nugent-hyper" ∨ a.model = "salt2"
        · simp [buildModel, hj, hm, hs] at h
        · push_neg at hs
          simp [buildModel, hj, hm, hs.1, hs.2] at h

/-- Witness for C2 at the concrete joint-mode input `argsJointNugent`. -/
theorem c2_witness :
    buildModel argsJointNugent =
      .ok (.KilonovaGRBLightCurveModel
        ⟨"nugent-hyper", none, 10, 10, "sklearn_gp"⟩ 5 0) ∧
    ∀ r s j, buildModel argsJointNugent ≠
      .ok (.SupernovaGRBLightCurveModel r s j) := by
  have h := c2_supernova_grb_branch_unreachable argsJointNugent
  exact ⟨h.1 rfl (by decide), h.2⟩

/-- C3: with the joint flag set and model "TrPi2018", dispatch fails with
the configuration error (the assertion at line 200) and no model value is
produced. -/
theorem c3_joint_grb_only_rejected (a : Args)
    (hj : a.joint_light_curve = true) (hm : a.model = "TrPi2018") :
    buildModel a =
      .error (.ConfigurationError
        "TrPi2018 is not a kilonova / supernova model") ∧
    ∀ m, buildModel a ≠ .ok m := by
  refine ⟨by simp [buildModel, hj, hm], ?_⟩
  intro m h
  simp [buildModel, hj, hm] at h

/-- Witness for C3 at the concrete input `argsJointTrPi`. -/
theorem c3_witness :
    buildModel argsJointTrPi =
      .error (.ConfigurationError
        "TrPi2018 is not a kilonova / supernova model") ∧
    ∀ m, buildModel argsJointTrPi ≠ .ok m :=
  c3_joint_grb_only_rejected argsJointTrPi rfl rfl

/-- Concrete arguments with the default time window tmin=0, tmax=14,
dt=0.1, single mode. -/
def argsDefaultTimes : Args :=
  ⟨"Bu2019lm", none, 0, 14, 1/10, 10, 10, 5, 0, "sklearn_gp",
   false, false, false, none, false, false⟩

/-- Concrete arguments with tmin=0, tmax=1, dt=0.3: a step that does not
divide the span. -/
def argsCoarseTimes : Args :=
  ⟨"Bu2019lm", none, 0, 1, 3/10, 10, 10, 5, 0, "sklearn_gp",
   false, false, false, none, false, false⟩

lemma arangeLen_default : arangeLen 0 (14 + 1/10) (1/10) = 141 := by
  unfold arangeLen
  rw [show ((14 + 1/10 : ℚ) - 0) / (1/10) = ((141 : ℤ) : ℚ) by norm_num,
    Int.ceil_intCast]
  rfl

lemma arangeLen_coarse : arangeLen 0 (1 + 3/10) (3/10) = 5 := by
  unfold arangeLen
  rw [show ((1 + 3/10 : ℚ) - 0) / (3/10) = (13/3 : ℚ) by norm_num,
    show (5 : ℕ) = Int.toNat 5 by rfl]
  congr 1
  rw [Int.ceil_eq_iff]
  norm_num

/-- C7 counterexample: for tmin=0, tmax=1, dt=0.3 the constructed grid
`arange(tmin, tmax + dt, dt)` has 5 points ([0, 0.3, 0.6, 0.9, 1.2]),
while the claimed general formula floor((t_max - t_min)/step) + 1 gives 4;
the claim's general length formula is false on the code. -/
theorem c7_counterexample :
    (sampleTimes argsCoarseTimes).length = 5 ∧
    (Int.floor ((argsCoarseTimes.tmax - argsCoarseTimes.tmin) /
      argsCoarseTimes.dt)).toNat + 1 = 4 ∧
    (sampleTimes argsCoarseTimes).length ≠
      (Int.floor ((argsCoarseTimes.tmax - argsCoarseTimes.tmin) /
        argsCoarseTimes.dt)).toNat + 1 := by
  have h1 : (sampleTimes argsCoarseTimes).length = 5 := by
    show (arange 0 (1 + 3/10) (3/10)).length = 5
    rw [arange_length, arangeLen_coarse]
  have h2 : (Int.floor ((argsCoarseTimes.tmax - argsCoarseTimes.tmin) /
      argsCoarseTimes.dt)).toNat + 1 = 4 := by
    show (Int.floor ((1 - 0 : ℚ) / (3/10))).toNat + 1 = 4
    rw [show ((1 - 0 : ℚ) / (3/10)) = (10/3 : ℚ) by norm_num,
      show Int.floor ((10:ℚ)/3) = 3 by norm_num]
    rfl
  exact ⟨h1, h2, by rw [h1, h2]; decide⟩

/-- C7 amended: for tmin=0, tmax=14, dt=0.1 the grid has exactly 141
points, first 0 and last exactly 14; in general (positive step, nonempty
window) the length is ceil((t_max - t_min)/step) + 1, which coincides
with the claimed floor((t_max - t_min)/step) + 1 exactly when the step
divides the span (as it does in the default configuration). -/
theorem c7_amended (a : Args) (hdt : 0 < a.dt) (hle : a.tmin ≤ a.tmax) :
    (sampleTimes argsDefaultTimes).length = 141 ∧
    (sampleTimes argsDefaultTimes).headD 0 = 0 ∧
    (sampleTimes argsDefaultTimes).getLastD 0 = 14 ∧
    (sampleTimes a).length =
      (Int.ceil ((a.tmax - a.tmin) / a.dt)).toNat + 1 ∧
    (∀ k : ℤ, a.tmax - a.tmin = k * a.dt →
      (sampleTimes a).length =
        (Int.floor ((a.tmax - a.tmin) / a.dt)).toNat + 1) := by
  have hdt0 : a.dt ≠ 0 := ne_of_gt hdt
  have hq : ((a.tmax + a.dt) - a.tmin) / a.dt =
      (a.tmax - a.tmin) / a.dt + 1 := by
    rw [show (a.tmax + a.dt) - a.tmin = (a.tmax - a.tmin) + a.dt by ring,
      add_div, div_self hdt0]
  have hnn : (0 : ℚ) ≤ (a.tmax - a.tmin) / a.dt :=
    div_nonneg (by linarith) (le_of_lt hdt)
  have hceil0 : (0 : ℤ) ≤ Int.ceil ((a.tmax - a.tmin) / a.dt) :=
    Int.ceil_nonneg hnn
  have hlen : (sampleTimes a).length =
      (Int.ceil ((a.tmax - a.tmin) / a.dt)).toNat + 1 := by
    show (arange a.tmin (a.tmax + a.dt) a.dt).length = _
    rw [arange_length, arangeLen, hq, Int.ceil_add_one]
    omega
  have hd141 : (sampleTimes argsDefaultTimes).length = 141 := by
    show (arange 0 (14 + 1/10) (1/10)).length = 141
    rw [arange_length, arangeLen_default]
  have hdfirst : (sampleTimes argsDefaultTimes).headD 0 = 0 := by
    show (arange 0 (14 + 1/10) (1/10)).headD 0 = 0
    exact arange_headD 0 (14 + 1/10) (1/10) 140 arangeLen_default
  have hdlast : (sampleTimes argsDefaultTimes).getLastD 0 = 14 := by
    show (arange 0 (14 + 1/10) (1/10)).getLastD 0 = 14
    rw [arange_getLastD 0 (14 + 1/10) (1/10) 140 arangeLen_default]
    norm_num
  refine ⟨hd141, hdfirst, hdlast, hlen, ?_⟩
  intro k hk
  have hkq : (a.tmax - a.tmin) / a.dt = (k : ℚ) := by
    rw [hk, mul_div_assoc, div_self hdt0, mul_one]
  rw [hlen, hkq, Int.ceil_intCast, Int.floor_intCast]

/-- Witness for C7's amendment at the default window (tmin=0, tmax=14,
dt=0.1). -/
theorem c7_amended_witness :
    (sampleTimes argsDefaultTimes).length = 141 ∧
    (sampleTimes argsDefaultTimes).length =
      (Int.ceil ((argsDefaultTimes.tmax - argsDefaultTimes.tmin) /
        argsDefaultTimes.dt)).toNat + 1 ∧
    (sampleTimes argsDefaultTimes).length =
      (Int.floor ((argsDefaultTimes.tmax - argsDefaultTimes.tmin) /
        argsDefaultTimes.dt)).toNat + 1 := by
  have h := c7_amended argsDefaultTimes (by norm_num [argsDefaultTimes])
    (by norm_num [argsDefaultTimes])
  exact ⟨h.1, h.2.2.2.1, h.2.2.2.2 140 (by norm_num [argsDefaultTimes])⟩

/-- An injection-parameter row / Python dict: an insertion-ordered list of
(name, value) bindings. -/
abbrev ParamRow := List (String × ℚ)

/-- A per-filter light-curve result: filter name → ordered list of
(time, magnitude) pairs. -/
abbrev LCResult := List (String × List (ℚ × ℚ))

/-- `d[k]` as an optional lookup (Python raises `KeyError` on `none`). -/
def rowLookup (row : ParamRow) (k : String) : Option ℚ :=
  (row.find? fun p => p.1 == k).map Prod.snd

/-- Python dict assignment `d[k] = v`: overwrite in place if the key is
present, append otherwise. -/
def insertKey : ParamRow → String → ℚ → ParamRow
  | [], k, v => [(k, v)]
  | p :: rest, k, v =>
      if p.1 = k then (k, v) :: rest else p :: insertKey rest k v

lemma rowLookup_insertKey (d : ParamRow) (k : String) (v : ℚ) :
    rowLookup (insertKey d k v) k = some v := by
  induction d with
  | nil => simp [insertKey, rowLookup]
  | cons p rest ih =>
      by_cases h : p.1 = k
      · simp [insertKey, rowLookup, h]
      · simpa [insertKey, rowLookup, h] using ih

/-- Lines 279-283 of the source: read `geocent_time_x`, fall back to
`geocent_time` on `KeyError`, and convert the GPS value to MJD.  The
astropy GPS-to-MJD conversion is an external collaborator, so it is a
function parameter `gpsToMjd`. -/
def deriveTriggerTime (gpsToMjd : ℚ → ℚ) (row : ParamRow) :
    Except PipelineError ℚ :=
  match rowLookup row "geocent_time_x" with
  | some t => .ok (gpsToMjd t)
  | none =>
      match rowLookup row "geocent_time" with
      | some t => .ok (gpsToMjd t)
      | none => .error .MissingFieldError

/-- Lines 277-292 of the source for one injection row: copy the row to a
dict, derive the trigger time, merge it under `kilonova_trigger_time`,
then call the model (`create_light_curve_data`, external) on the merged
parameters.  A missing trigger time aborts before the model is invoked. -/
def processRow (gpsToMjd : ℚ → ℚ) (evalModel : ParamRow → LCResult)
    (row : ParamRow) : Except PipelineError LCResult :=
  match deriveTriggerTime gpsToMjd row with
  | .error e => .error e
  | .ok trigger =>
      .ok (evalModel (insertKey row "kilonova_trigger_time" trigger))

/-- C5: the trigger time comes from the primary key `geocent_time_x` when
present; only if it is absent is the alias `geocent_time` read; a row with
neither key fails with the missing-field error and the model is never
evaluated (the outcome is independent of the model function). -/
theorem c5_trigger_time_fallback (conv : ℚ → ℚ) (row : ParamRow) :
    (∀ t, rowLookup row "geocent_time_x" = some t →
      deriveTriggerTime conv row = .ok (conv t)) ∧
    (∀ t, rowLookup row "geocent_time_x" = none →
      rowLookup row "geocent_time" = some t →
      deriveTriggerTime conv row = .ok (conv t)) ∧
    (rowLookup row "geocent_time_x" = none →
      rowLookup row "geocent_time" = none →
      ∀ evalModel, processRow conv evalModel row =
        .error .MissingFieldError) := by
  refine ⟨?_, ?_, ?_⟩
  · intro t ht
    simp [deriveTriggerTime, ht]
  · intro t hx ht
    simp [deriveTriggerTime, hx, ht]
  · intro hx ht evalModel
    simp [processRow, deriveTriggerTime, hx, ht]

/-- Witness for C5 on three concrete rows: primary key present, only the
alias present, and neither present. -/
theorem c5_witness :
    deriveTriggerTime id [("geocent_time_x", 100), ("geocent_time", 200)] =
      .ok 100 ∧
    deriveTriggerTime id [("geocent_time", 200)] = .ok 200 ∧
    processRow id (fun _ => [("g", [(0, -16)])]) [("luminosity_distance", 40)] =
      .error .MissingFieldError := by
  refine ⟨?_, ?_, ?_⟩
  · exact (c5_trigger_time_fallback id
      [("geocent_time_x", 100), ("geocent_time", 200)]).1 100 rfl
  · exact (c5_trigger_time_fallback id
      [("geocent_time", 200)]).2.1 200 rfl rfl
  · exact (c5_trigger_time_fallback id
      [("luminosity_distance", 40)]).2.2 rfl rfl _

/-- A heap of dicts: the mutable store in which the pandas row and the
dict produced by `row.to_dict()` live; addresses are list positions. -/
abbrev Heap := List ParamRow

/-- Allocate a fresh dict holding a copy of `d`; returns its address. -/
def allocDict (h : Heap) (d : ParamRow) : Heap × ℕ := (h ++ [d], h.length)

/-- Overwrite the dict at address `a`. -/
def setDict (h : Heap) (a : ℕ) (d : ParamRow) : Heap := h.set a d

/-- Read the dict at address `a`. -/
def getDict (h : Heap) (a : ℕ) : ParamRow := h.getD a []

/-- Lines 277-285 of the source as heap operations:
`injection_parameters = row.to_dict()` allocates a fresh copy of the row,
and `injection_parameters["kilonova_trigger_time"] = trigger_time`
mutates that copy only. -/
def mergeTriggerTime (h : Heap) (rowAddr : ℕ) (trigger : ℚ) : Heap × ℕ :=
  let d := getDict h rowAddr
  let alloc := allocDict h d
  (setDict alloc.1 alloc.2 (insertKey d "kilonova_trigger_time" trigger),
   alloc.2)

/-- C10: merging the derived trigger time into the parameter dict passed
to synthesis leaves the caller's original table row untouched, while the
dict the model receives does carry the derived field. -/
theorem c10_row_not_mutated (h : Heap) (a : ℕ) (t : ℚ)
    (ha : a < h.length) :
    getDict (mergeTriggerTime h a t).1 a = getDict h a ∧
    rowLookup
      (getDict (mergeTriggerTime h a t).1 (mergeTriggerTime h a t).2)
      "kilonova_trigger_time" = some t := by
  constructor
  · show ((h ++ [getDict h a]).set h.length _).getD a [] = h.getD a []
    rw [List.getD_eq_getElem?_getD, List.getD_eq_getElem?_getD,
      List.getElem?_set_ne (by omega), List.getElem?_append, if_pos ha]
  · show rowLookup (((h ++ [getDict h a]).set h.length
      (insertKey (getDict h a) "kilonova_trigger_time" t)).getD h.length [])
      "kilonova_trigger_time" = some t
    rw [List.getD_eq_getElem?_getD, List.getElem?_set_self (by simp)]
    exact rowLookup_insertKey _ _ _

/-- Witness for C10 on a one-row heap. -/
theorem c10_witness :
    getDict (mergeTriggerTime [[("geocent_time", 200)]] 0 5).1 0 =
      [("geocent_time", 200)] ∧
    rowLookup
      (getDict (mergeTriggerTime [[("geocent_time", 200)]] 0 5).1
        (mergeTriggerTime [[("geocent_time", 200)]] 0 5).2)
      "kilonova_trigger_time" = some 5 := by
  have h := c10_row_not_mutated [[("geocent_time", 200)]] 0 5
    (by decide)
  exact ⟨h.1, h.2⟩

/-- The JSON values exchanged by `json.dump(data, outfile, cls=NumpyEncoder)`
(line 296) and `json.loads(outfile.read())` (line 274): numbers, arrays,
and string-keyed objects (the NumpyEncoder turns numpy arrays into nested
lists). -/
inductive JValue where
  | jnum (q : ℚ)
  | jarr (xs : List JValue)
  | jobj (kvs : List (String × JValue))

/-- Serialize one (time, magnitude) sample as a two-element JSON array. -/
def encodePair (p : ℚ × ℚ) : JValue := .jarr [.jnum p.1, .jnum p.2]

/-- Parse a two-element JSON array back into a (time, magnitude) pair. -/
def decodePair : JValue → Option (ℚ × ℚ)
  | .jarr [.jnum t, .jnum m] => some (t, m)
  | _ => none

/-- Serialize one filter's series. -/
def encodeSeries (s : List (ℚ × ℚ)) : JValue := .jarr (s.map encodePair)

/-- Parse one filter's series. -/
def decodeSeries : JValue → Option (List (ℚ × ℚ))
  | .jarr xs => xs.mapM decodePair
  | _ => none

/-- Serialize a light-curve result as the JSON object written at line 296. -/
def encodeResult (r : LCResult) : JValue :=
  .jobj (r.map fun fs => (fs.1, encodeSeries fs.2))

/-- Parse the JSON object read back at line 274. -/
def decodeResult : JValue → Option LCResult
  | .jobj kvs => kvs.mapM fun kv => (decodeSeries kv.2).map fun s => (kv.1, s)
  | _ => none

lemma decodePair_encodePair (p : ℚ × ℚ) :
    decodePair (encodePair p) = some p := rfl

lemma decodeSeries_encodeSeries (s : List (ℚ × ℚ)) :
    decodeSeries (encodeSeries s) = some s := by
  show (s.map encodePair).mapM decodePair = some s
  induction s with
  | nil => rfl
  | cons p rest ih =>
      simp only [List.map_cons, List.mapM_cons, decodePair_encodePair, ih]
      rfl

lemma decodeResult_encodeResult (r : LCResult) :
    decodeResult (encodeResult r) = some r := by
  show (r.map fun fs => (fs.1, encodeSeries fs.2)).mapM _ = some r
  induction r with
  | nil => rfl
  | cons fs rest ih =>
      simp only [List.map_cons, List.mapM_cons, decodeSeries_encodeSeries, ih]
      rfl

/-- C6: persisting a light-curve result to its per-index JSON artifact and
reloading it gives back the original, filter by filter and sample by
sample; over the exact-rational embedding the round trip is exact, which
is within any floating-point tolerance. -/
theorem c6_artifact_roundtrip (r : LCResult) :
    decodeResult (encodeResult r) = some r :=
  decodeResult_encodeResult r

/-- The output directory as a store of per-index artifacts
(`os.path.join(args.outdir, "%d.dat" % index)`, line 271). -/
abbrev Store := List (ℕ × JValue)

/-- `os.path.isfile` plus read: the artifact for `index`, if present. -/
def storeLookup (s : Store) (i : ℕ) : Option JValue :=
  (s.find? fun p => p.1 == i).map Prod.snd

/-- Write (or overwrite) the artifact for `index`. -/
def storeWrite (s : Store) (i : ℕ) (v : JValue) : Store := (i, v) :: s

lemma storeLookup_write_self (s : Store) (i : ℕ) (v : JValue) :
    storeLookup (storeWrite s i v) i = some v := by
  simp [storeLookup, storeWrite]

/-- Outcome of one pass of the cache loop body (lines 271-298) for one
index: the value put into `mag_ds[index]`, the directory afterwards, and
how many times the synthesis call at line 287 ran.  The synthesis
function applied to the (fixed) row is modelled by its result
`synthResult`, and `synthCalls` counts its invocations. -/
structure CacheStep where
  value : Option LCResult
  store : Store
  synthCalls : ℕ

/-- Lines 271-298: if the artifact file exists, parse it and continue
without synthesizing; otherwise synthesize, persist the encoded result,
and record it. -/
def getOrCompute (fs : Store) (index : ℕ) (synthResult : LCResult) :
    CacheStep :=
  match storeLookup fs index with
  | some j => ⟨decodeResult j, fs, 0⟩
  | none =>
      ⟨some synthResult, storeWrite fs index (encodeResult synthResult), 1⟩

/-- C4: running the cache body twice for the same index and parameters,
with nothing deleted in between, synthesizes at most once in total and
returns the same value both times; and when the artifact already exists
the stored value is parsed and returned with no synthesis at all. -/
theorem c4_cache_idempotent (fs : Store) (index : ℕ) (d : LCResult) :
    (getOrCompute fs index d).synthCalls +
      (getOrCompute (getOrCompute fs index d).store index d).synthCalls
        ≤ 1 ∧
    (getOrCompute (getOrCompute fs index d).store index d).value =
      (getOrCompute fs index d).value ∧
    (∀ j, storeLookup fs index = some j →
      (getOrCompute fs index d).synthCalls = 0 ∧
      (getOrCompute fs index d).value = decodeResult j) := by
  cases hl : storeLookup fs index with
  | some j =>
      refine ⟨by simp [getOrCompute, hl], by simp [getOrCompute, hl], ?_⟩
      intro j' hj'
      cases hj'
      simp [getOrCompute, hl]
  | none =>
      have hfirst : getOrCompute fs index d =
          ⟨some d, storeWrite fs index (encodeResult d), 1⟩ := by
        simp [getOrCompute, hl]
      have hsecond : getOrCompute (getOrCompute fs index d).store index d =
          ⟨some d, storeWrite fs index (encodeResult d), 0⟩ := by
        rw [hfirst]
        show getOrCompute (storeWrite fs index (encodeResult d)) index d = _
        simp [getOrCompute, storeLookup_write_self,
          decodeResult_encodeResult]
      refine ⟨?_, ?_, ?_⟩
      · rw [hsecond, hfirst]
        exact le_refl 1
      · rw [hsecond, hfirst]
      · intro j' hj'
        cases hj'

/-- A tiny concrete light-curve result used by witnesses. -/
def demoLC : LCResult := [("g", [(0, -16), (1, -15)])]

/-- Witness for C4 on an empty directory and on a directory already
holding index 3's artifact. -/
theorem c4_witness :
    (getOrCompute [] 3 demoLC).synthCalls +
      (getOrCompute (getOrCompute [] 3 demoLC).store 3 demoLC).synthCalls
        ≤ 1 ∧
    (getOrCompute (getOrCompute [] 3 demoLC).store 3 demoLC).value =
      (getOrCompute [] 3 demoLC).value ∧
    (getOrCompute [(3, encodeResult demoLC)] 3 demoLC).synthCalls = 0 ∧
    (getOrCompute [(3, encodeResult demoLC)] 3 demoLC).value =
      decodeResult (encodeResult demoLC) := by
  refine ⟨(c4_cache_idempotent [] 3 demoLC).1,
    (c4_cache_idempotent [] 3 demoLC).2.1,
    (c4_cache_idempotent [(3, encodeResult demoLC)] 3 demoLC).2.2
      (encodeResult demoLC) rfl⟩

/-- Value at `x` of the line through (x0, y0) and (x1, y1). -/
def lineThrough (x0 y0 x1 y1 x : ℚ) : ℚ :=
  y0 + (y1 - y0) * (x - x0) / (x1 - x0)

/-- Piecewise-linear evaluation over a sorted point list: the segment
whose right endpoint first reaches `x` is used, and the first/last
segment is continued linearly outside the span. -/
def interpAux : (ℚ × ℚ) → (ℚ × ℚ) → List (ℚ × ℚ) → ℚ → ℚ
  | p0, p1, [], x => lineThrough p0.1 p0.2 p1.1 p1.2 x
  | p0, p1, p2 :: rest, x =>
      if x ≤ p1.1 then lineThrough p0.1 p0.2 p1.1 p1.2 x
      else interpAux p1 p2 rest x

/-- `scipy.interpolate.interp1d(times, mags, fill_value="extrapolate")`
as called at lines 342-344: linear in the interior, linear extrapolation
outside; scipy requires at least two points, hence `Option`. -/
def interp1d (pts : List (ℚ × ℚ)) (x : ℚ) : Option ℚ :=
  match pts with
  | p0 :: p1 :: rest => some (interpAux p0 p1 rest x)
  | _ => none

/-- The flag disjunction at line 341:
`ztf_sampling or ztf_ToO or rubin_ToO or photometry_augmentation`. -/
def realismActive (a : Args) : Bool :=
  a.ztf_sampling || a.ztf_ToO.isSome || a.rubin_ToO ||
    a.photometry_augmentation

/-- Lines 341-347: the vector appended to `data_out` for one injection's
(time, magnitude) series: resampled onto the grid through `interp1d` when
any realism flag is active, the raw magnitude column otherwise. -/
def dataOutEntry (a : Args) (series : List (ℚ × ℚ)) (grid : List ℚ) :
    Option (List ℚ) :=
  if realismActive a then grid.mapM (interp1d series)
  else some (series.map Prod.snd)

/-- C8: under an active realism flag a two-point series is evaluated at
any grid time by the global line through its points (linear extrapolation
beyond the span, not flat clamping); the concrete series [(1,10),(2,12)]
resampled onto the 5-point grid [0,1,2,3,4] yields all 5 values
[8,10,12,14,16]; with no realism flag active the raw magnitudes are used
directly. -/
theorem c8_resampling_extrapolates (a : Args) :
    (realismActive a = true →
      ∀ x0 y0 x1 y1 x : ℚ, x0 ≠ x1 →
        dataOutEntry a [(x0, y0), (x1, y1)] [x] =
          some [y0 + (y1 - y0) * (x - x0) / (x1 - x0)]) ∧
    (realismActive a = true →
      dataOutEntry a [(1, 10), (2, 12)] [0, 1, 2, 3, 4] =
        some [8, 10, 12, 14, 16]) ∧
    (realismActive a = false →
      ∀ series grid, dataOutEntry a series grid =
        some (series.map Prod.snd)) := by
  refine ⟨?_, ?_, ?_⟩
  · intro hf x0 y0 x1 y1 x _
    simp [dataOutEntry, hf, List.mapM, List.mapM.loop, interp1d,
      interpAux, lineThrough]
  · intro hf
    rw [dataOutEntry, if_pos hf]
    norm_num [List.mapM, List.mapM.loop, interp1d, interpAux, lineThrough]
  · intro hf series grid
    simp [dataOutEntry, hf]

/-- Concrete arguments with the ZTF-sampling realism flag set. -/
def argsZtf : Args :=
  ⟨"Bu2019lm", none, 0, 14, 1/10, 10, 10, 5, 0, "sklearn_gp",
   false, false, true, none, false, false⟩

/-- Witness for C8: flag active on `argsZtf` (2-point series over a
5-point grid, with the general line formula at x = 4), flag inactive on
`argsDefaultTimes`. -/
theorem c8_witness :
    dataOutEntry argsZtf [(1, 10), (2, 12)] [0, 1, 2, 3, 4] =
      some [8, 10, 12, 14, 16] ∧
    dataOutEntry argsZtf [(1, 10), (2, 12)] [4] =
      some [10 + (12 - 10) * (4 - 1) / (2 - 1)] ∧
    dataOutEntry argsDefaultTimes [(1, 10), (2, 12)] [0, 1, 2, 3, 4] =
      some [10, 12] := by
  refine ⟨(c8_resampling_extrapolates argsZtf).2.1 rfl,
    (c8_resampling_extrapolates argsZtf).1 rfl 1 10 2 12 4 (by norm_num),
    (c8_resampling_extrapolates argsDefaultTimes).2.2 rfl
      [(1, 10), (2, 12)] [0, 1, 2, 3, 4]⟩

/-- The i-th point of `np.linspace(a, b, n)`. -/
def linspacePoint (a b : ℚ) (n : ℕ) (i : ℕ) : ℚ :=
  a + (b - a) * (i : ℚ) / ((n : ℚ) - 1)

/-- `np.linspace(a, b, n)`. -/
def linspace (a b : ℚ) (n : ℕ) : List ℚ :=
  (List.range n).map (linspacePoint a b n)

/-- The fixed histogram bin edges of line 350:
`np.linspace(-20, 1, 50)` (50 edges, 49 bins). -/
def theBins : List ℚ := linspace (-20) 1 50

/-- Count of values falling in a bin: half-open [lo, hi) for interior
bins, closed [lo, hi] for the last (numpy convention). -/
def binCount (xs : List ℚ) (lo hi : ℚ) (closed : Bool) : ℕ :=
  (xs.filter fun v =>
    decide (lo ≤ v) &&
      (if closed then decide (v ≤ hi) else decide (v < hi))).length

/-- `np.histogram(xs, bins=edges)[0]` (lines 352-354). -/
def npHistogram (xs : List ℚ) (edges : List ℚ) : List ℕ :=
  (List.range (edges.length - 1)).map fun i =>
    binCount xs (edges.getD i 0) (edges.getD (i+1) 0)
      (i == edges.length - 2)

/-- Insert into a sorted list, keeping it sorted. -/
def insertSorted (x : ℚ) : List ℚ → List ℚ
  | [] => [x]
  | y :: ys => if x ≤ y then x :: y :: ys else y :: insertSorted x ys

/-- Ascending insertion sort. -/
def sortRat (xs : List ℚ) : List ℚ := xs.foldr insertSorted []

/-- `np.nanpercentile(xs, q)` with the default linear interpolation
between order statistics at fractional rank (n-1)q/100 (lines 366-373);
over this embedding the column holds no missing values, for which
nanpercentile coincides with percentile. -/
def npPercentile (q : ℚ) (xs : List ℚ) : ℚ :=
  let s := sortRat xs
  if s.length = 0 then 0
  else
    let r : ℚ := ((s.length - 1 : ℕ) : ℚ) * q / 100
    let k : ℕ := (Int.floor r).toNat
    s.getD k 0 + (r - (k : ℚ)) * (s.getD (k+1) (s.getD k 0) - s.getD k 0)

/-- Column `j` of the stacked injection-by-time matrix: the code
histograms and takes percentiles along the injection axis
(`data_out.T`, `axis=0`; lines 356, 368-373). -/
def columnAt (rows : List (List ℚ)) (j : ℕ) : List ℚ :=
  rows.map fun r => r.getD j 0

/-- The per-time percentile curve plotted at lines 366-373. -/
def percentileCurve (q : ℚ) (rows : List (List ℚ)) (ncols : ℕ) :
    List ℚ :=
  (List.range ncols).map fun j => npPercentile q (columnAt rows j)

/-- The per-time histograms computed at line 356. -/
def histCurve (rows : List (List ℚ)) (ncols : ℕ) : List (List ℕ) :=
  (List.range ncols).map fun j => npHistogram (columnAt rows j) theBins

/-- The C9 scenario matrix: three injections whose series in filter "g"
are constant at -15, -16 and -17 across a 3-point grid. -/
def rowsC9 : List (List ℚ) :=
  [List.replicate 3 (-15), List.replicate 3 (-16), List.replicate 3 (-17)]

lemma getD_map_range {α : Type} (m : ℕ) (f : ℕ → α) (j : ℕ) (hj : j < m)
    (d : α) : ((List.range m).map f).getD j d = f j := by
  rw [List.getD_eq_getElem?_getD, List.getElem?_map, List.getElem?_range hj]
  rfl

lemma theBins_length : theBins.length = 50 := by simp [theBins, linspace]

lemma theBins_nine : theBins.getD 9 0 = -113/7 := by
  rw [theBins, linspace, getD_map_range 50 _ 9 (by norm_num)]
  norm_num [linspacePoint]

lemma theBins_ten : theBins.getD 10 0 = -110/7 := by
  rw [theBins, linspace, getD_map_range 50 _ 10 (by norm_num)]
  norm_num [linspacePoint]

lemma histCurve_rowsC9_getD (j : ℕ) (hj : j < 3) :
    ((histCurve rowsC9 3).getD j []).getD 9 0 =
      binCount (columnAt rowsC9 j) (-113/7) (-110/7) false := by
  rw [histCurve, getD_map_range 3 _ j hj, npHistogram, theBins_length]
  rw [getD_map_range 49 _ 9 (by norm_num), theBins_nine, theBins_ten]
  rfl

lemma columnAt_rowsC9 (j : ℕ) (hj : j < 3) :
    columnAt rowsC9 j = [-15, -16, -17] := by
  interval_cases j <;> rfl

lemma binCount_scenario :
    binCount [-15, -16, -17] (-113/7) (-110/7) false = 1 := by
  norm_num [binCount, List.filter]

lemma percentile_scenario : npPercentile 50 [-15, -16, -17] = -16 := by
  norm_num [npPercentile, sortRat, insertSorted]

/-- C9 counterexample: in the three-constant-injections scenario the
50th-percentile curve is [-16,-16,-16] as claimed, and bin 9 of the fixed
edges is the bin containing -16, but its count at time column 0 is 1, not
the claimed 3: the three magnitudes -15, -16, -17 land in three distinct
bins of width 21/49. -/
theorem c9_counterexample :
    percentileCurve 50 rowsC9 3 = [-16, -16, -16] ∧
    theBins.getD 9 0 ≤ -16 ∧ (-16 : ℚ) < theBins.getD 10 0 ∧
    ((histCurve rowsC9 3).getD 0 []).getD 9 0 = 1 ∧
    ((histCurve rowsC9 3).getD 0 []).getD 9 0 ≠ 3 := by
  have hp : percentileCurve 50 rowsC9 3 = [-16, -16, -16] := by
    rw [percentileCurve, show List.range 3 = [0, 1, 2] from rfl]
    simp only [List.map_cons, List.map_nil,
      columnAt_rowsC9 0 (by norm_num), columnAt_rowsC9 1 (by norm_num),
      columnAt_rowsC9 2 (by norm_num), percentile_scenario]
  have hh : ((histCurve rowsC9 3).getD 0 []).getD 9 0 = 1 := by
    rw [histCurve_rowsC9_getD 0 (by norm_num),
      columnAt_rowsC9 0 (by norm_num), binCount_scenario]
  refine ⟨hp, ?_, ?_, hh, by rw [hh]; decide⟩
  · rw [theBins_nine]; norm_num
  · rw [theBins_ten]; norm_num

/-- C9 amended: the 50th-percentile series is [-16,-16,-16], and the bin
containing -16 (bin 9 of the fixed edges) has count 1 — not 3 — at every
time column: each of the three per-column values -15, -16, -17 falls in
its own bin. -/
theorem c9_aggregation_amended :
    percentileCurve 50 rowsC9 3 = [-16, -16, -16] ∧
    theBins.getD 9 0 ≤ -16 ∧ (-16 : ℚ) < theBins.getD 10 0 ∧
    ((histCurve rowsC9 3).getD 0 []).getD 9 0 = 1 ∧
    ((histCurve rowsC9 3).getD 1 []).getD 9 0 = 1 ∧
    ((histCurve rowsC9 3).getD 2 []).getD 9 0 = 1 := by
  have hp : percentileCurve 50 rowsC9 3 = [-16, -16, -16] := by
    rw [percentileCurve, show List.range 3 = [0, 1, 2] from rfl]
    simp only [List.map_cons, List.map_nil,
      columnAt_rowsC9 0 (by norm_num), columnAt_rowsC9 1 (by norm_num),
      columnAt_rowsC9 2 (by norm_num), percentile_scenario]
  have hh : ∀ j, (hj : j < 3) →
      ((histCurve rowsC9 3).getD j []).getD 9 0 = 1 := by
    intro j hj
    rw [histCurve_rowsC9_getD j hj, columnAt_rowsC9 j hj, binCount_scenario]
  refine ⟨hp, ?_, ?_, hh 0 (by norm_num), hh 1 (by norm_num),
    hh 2 (by norm_num)⟩
  · rw [theBins_nine]; norm_num
  · rw [theBins_ten]; norm_num

end NMMA
